import Mathlib

/-!
Verification of the nlp-to-sql-langgraph repository against its
natural-language specification.

The development shallowly embeds the parts of the program the claims are
about:

* the LangGraph state graph built by `GraphManager.create_graph`
  (`src/core/langgraph/graph.py`, quoted in the architecture document);
* the batch SQL execution and per-cell result marking of
  `frontend/components/SqlEditor.tsx` (`executeBatch`);
* the `<----->` statement separator join/split round trip
  (`SqlEditor.tsx` / `UserProfile.tsx`);
* the query API client's error fallback envelope (`lib/api.ts`,
  `executeQuery`);
* the pagination bounds check of `SqlResult.tsx` (`handlePageChange`);
* conversation-memory retrieval (`MemoryManager.get_relevant_context`);
* the `ChartType` enumeration of `Visualization.tsx`;
* the `VerificationResult` interface of `VerificationResult.tsx`;
* the admin gate on the SQL-editor panel in `UserProfile.tsx`.
-/

namespace NlpToSql

/-! ## The orchestration graph

`GraphManager.create_graph` adds nine named nodes plus the LangGraph
sentinels `START` and `END`, wires `START → route_query`, four conditional
edge maps, and four direct edges into `END`.  `Node` lists exactly the
vertices of that graph; the reserved word `END` is rendered `END_`. -/

inductive Node where
  | START
  | route_query
  | handle_conversational
  | generate_sql
  | validate_sql
  | generate_response
  | handle_error
  | generate_analytical_questions
  | execute_analytical_workflow
  | generate_comprehensive_analysis
  | END_
  deriving DecidableEq, Repr, Fintype

/-- The conditional edge maps of `create_graph`, as (decision label, target)
pairs: the dictionaries passed to `graph.add_conditional_edges` for
`route_query`, `generate_sql`, `generate_analytical_questions` and
`execute_analytical_workflow`.  Every other node has no conditional edges. -/
def conditionalEdges : Node → List (String × Node)
  | .route_query =>
      [("conversational", .handle_conversational),
       ("analytical", .generate_analytical_questions),
       ("standard", .generate_sql),
       ("error", .handle_error)]
  | .generate_sql =>
      [("validate", .validate_sql),
       ("respond", .generate_response),
       ("error", .handle_error)]
  | .generate_analytical_questions =>
      [("execute", .execute_analytical_workflow),
       ("error", .handle_error)]
  | .execute_analytical_workflow =>
      [("analyze", .generate_comprehensive_analysis),
       ("error", .handle_error)]
  | _ => []

/-- The unconditional edges of `create_graph`: `START → route_query` and the
four `add_edge(_, END)` calls. -/
def directEdges : Node → List Node
  | .START => [.route_query]
  | .handle_conversational => [.END_]
  | .generate_response => [.END_]
  | .generate_comprehensive_analysis => [.END_]
  | .handle_error => [.END_]
  | _ => []

/-- All successors of a node: direct edges plus the targets of its
conditional edge map. -/
def successors (n : Node) : List Node :=
  directEdges n ++ (conditionalEdges n).map Prod.snd

/-- The four nodes the specification names as the predecessors of `END`. -/
def terminalPreds : List Node :=
  [.handle_conversational, .generate_response,
   .generate_comprehensive_analysis, .handle_error]

/-- A list of nodes is a walk of the graph when each element steps to the
next along `successors`. -/
def isWalk : List Node → Bool
  | [] => true
  | [_] => true
  | a :: b :: rest => (successors a).contains b && isWalk (b :: rest)

/-- A rank that strictly decreases along every edge, witnessing that the
graph is acyclic and every execution terminates. -/
def rank : Node → Nat
  | .START => 6
  | .route_query => 5
  | .generate_sql => 4
  | .generate_analytical_questions => 4
  | .execute_analytical_workflow => 3
  | .validate_sql => 3
  | .handle_conversational => 2
  | .generate_response => 2
  | .generate_comprehensive_analysis => 2
  | .handle_error => 2
  | .END_ => 0

/-! ## The query API client's error fallback (`lib/api.ts`, `executeQuery`) -/

/-- The response envelope fields the error-handling claims are about. -/
structure Envelope where
  success : Bool
  query_type : String
  text : String
  error : Option String
  deriving DecidableEq, Repr

/-- The `catch` branch of `executeQuery` in `lib/api.ts`: a raised error is
converted into a standardized envelope.  `msg` is `some m` when the thrown
value is an `Error` with message `m`, `none` otherwise. -/
def executeQueryFallback (msg : Option String) : Envelope :=
  { success := false
    error := some (msg.getD ("Unknown error occurred"))
    query_type := "conversational"
    text := match msg with
      | some m => "Error: " ++ m
      | none => "An unknown error occurred while executing your query." }

/-- The function `executeQuery` as seen by its caller: a successful response is passed
through (after the `query_type` switch), a raised error becomes the fallback
envelope.  The function is total: every input yields an envelope. -/
def executeQueryBoundary (r : Except (Option String) Envelope) : Envelope :=
  match r with
  | .ok env => env
  | .error m => executeQueryFallback m

/-! ## C1: graph termination and terminal nodes -/

/-- C1 counterexample: the walk START → route_query → generate_sql →
validate_sql is a real execution path of the graph, yet `validate_sql` has
no outgoing edges at all — `create_graph` wires no edge out of it — so this
execution stops at `validate_sql`, which is neither `END` nor one of the
four terminal-predecessor nodes.  In particular there is no
validate_sql → generate_sql retry edge. -/
theorem c1_validate_sql_dead_end :
    isWalk [Node.START, Node.route_query, Node.generate_sql,
            Node.validate_sql] = true ∧
    successors Node.validate_sql = [] ∧
    Node.validate_sql ∉ terminalPreds ∧
    Node.validate_sql ≠ Node.END_ := by
  decide

/-- C1 (amended): in the graph built by `create_graph`, `END` is entered
exactly from the four nodes `handle_conversational`, `generate_response`,
`generate_comprehensive_analysis` and `handle_error`; every edge strictly
decreases a rank, so every execution from START terminates; but the nodes
at which an execution can stop are `END` and the dead-end `validate_sql`
(which `create_graph` leaves without outgoing edges, so no bounded
validate_sql/generate_sql retry loop exists in the graph). -/
theorem c1_graph_terminals :
    (∀ n : Node, Node.END_ ∈ successors n ↔ n ∈ terminalPreds) ∧
    (∀ n m : Node, m ∈ successors n → rank m < rank n) ∧
    (∀ n : Node, successors n = [] →
      n = Node.END_ ∨ n = Node.validate_sql) := by
  decide

/-- Witness for `c1_graph_terminals` at concrete nodes. -/
theorem c1_graph_terminals_witness :
    Node.END_ ∈ successors Node.handle_error ∧
    rank Node.END_ < rank Node.handle_error ∧
    (Node.validate_sql = Node.END_ ∨
     Node.validate_sql = Node.validate_sql) :=
  ⟨(c1_graph_terminals.1 Node.handle_error).mpr (by decide),
   c1_graph_terminals.2.1 Node.handle_error Node.END_
     ((c1_graph_terminals.1 Node.handle_error).mpr (by decide)),
   c1_graph_terminals.2.2 Node.validate_sql (by decide)⟩

/-! ## C5: unrecoverable errors end at handle_error with a conversational
failure envelope -/

/-- C5: every `"error"` decision label in a conditional edge map routes to
`handle_error`; `handle_error`'s only successor is `END`; and the public
boundary turns a raised error into an envelope with
`query_type = "conversational"` and `success = false` — `executeQueryBoundary`
is a total function, so no error crosses it as an exception. -/
theorem c5_errors_end_conversational :
    (∀ n : Node, ∀ t : Node,
        ("error", t) ∈ conditionalEdges n → t = Node.handle_error) ∧
    successors Node.handle_error = [Node.END_] ∧
    (∀ msg : Option String,
        executeQueryBoundary (.error msg) =
          executeQueryFallback msg ∧
        (executeQueryFallback msg).query_type = "conversational" ∧
        (executeQueryFallback msg).success = false) := by
  refine ⟨?_, by simp [successors, directEdges, conditionalEdges], ?_⟩
  · intro n t h
    cases n <;> simp [conditionalEdges] at h <;> simp_all
  · intro msg
    exact ⟨rfl, rfl, rfl⟩

/-- Witness for `c5_errors_end_conversational` at a concrete node and
message. -/
theorem c5_errors_end_conversational_witness :
    Node.handle_error = Node.handle_error ∧
    (executeQueryFallback (some ("db down"))).query_type = "conversational" :=
  ⟨c5_errors_end_conversational.1 Node.route_query Node.handle_error
      (by decide),
   (c5_errors_end_conversational.2.2 (some ("db down"))).2.1⟩

/-! ## The `<----->` statement separator

`executeBatch` (SqlEditor.tsx) joins the non-empty trimmed cell contents with
`'\n<----->\n'`; `UserProfile.tsx` splits a response's `sql` on `'<----->'`,
trims each piece and drops the empty ones.  Strings are modelled as
`List Char`; `splitOnSentinel` mirrors JavaScript
`String.prototype.split('<----->')` (leftmost, non-overlapping). -/

/-- The multi-statement separator `<----->`. -/
def sentinel : List Char := ['<', '-', '-', '-', '-', '-', '>']

/-- Prepend `x` to the first piece of a split (used to state how `split`
acts on a cons). -/
def consHead (x : List Char) : List (List Char) → List (List Char)
  | [] => [x]
  | p :: ps => (x ++ p) :: ps

/-- JavaScript `s.split('<----->')`: scan left to right; each occurrence of
the sentinel ends the current piece. -/
def splitOnSentinel : List Char → List (List Char)
  | '<' :: '-' :: '-' :: '-' :: '-' :: '-' :: '>' :: rest =>
      [] :: splitOnSentinel rest
  | c :: rest => consHead [c] (splitOnSentinel rest)
  | [] => [[]]

/-- Whitespace for `String.prototype.trim` (the characters that occur in
this code base's SQL strings). -/
def isWs (c : Char) : Bool := c == ' ' || c == '\n' || c == '\t' || c == '\r'

/-- Leading-whitespace removal. -/
def trimLeftChars (s : List Char) : List Char := s.dropWhile isWs

/-- Trailing-whitespace removal. -/
def trimRightChars (s : List Char) : List Char :=
  (s.reverse.dropWhile isWs).reverse

/-- JavaScript `s.trim()`. -/
def trimChars (s : List Char) : List Char := trimRightChars (trimLeftChars s)

/-- The separator `executeBatch` joins with: `'\n<----->\n'`. -/
def sepJoin : List Char := '\n' :: (sentinel ++ ['\n'])

/-- JavaScript `queries.join('\n<----->\n')` (SqlEditor.tsx,
`executeBatch`). -/
def joinQueries : List (List Char) → List Char
  | [] => []
  | [q] => q
  | q :: qs => q ++ sepJoin ++ joinQueries qs

/-- The split `result.sql.split('<----->').map(q => q.trim()).filter(q => q)`
(UserProfile.tsx). -/
def splitQueries (s : List Char) : List (List Char) :=
  ((splitOnSentinel s).map trimChars).filter (fun p => !p.isEmpty)

/-! ### Split / trim lemmas -/

theorem consHead_ne_nil (x : List Char) (l : List (List Char)) :
    consHead x l ≠ [] := by
  cases l <;> simp [consHead]

theorem consHead_consHead (x y : List Char) (l : List (List Char)) :
    consHead x (consHead y l) = consHead (x ++ y) l := by
  cases l <;> simp [consHead]

theorem splitOnSentinel_ne_nil (s : List Char) : splitOnSentinel s ≠ [] := by
  rw [splitOnSentinel.eq_def]
  split
  · simp
  · exact consHead_ne_nil _ _
  · simp

theorem splitOnSentinel_sentinel_append (r : List Char) :
    splitOnSentinel (sentinel ++ r) = [] :: splitOnSentinel r := rfl

theorem splitOnSentinel_cons_neg (c : Char) (rest : List Char)
    (h : ¬ sentinel <+: (c :: rest)) :
    splitOnSentinel (c :: rest) = consHead [c] (splitOnSentinel rest) := by
  apply splitOnSentinel.eq_2
  intro r1 hc hr
  subst hc; subst hr
  exact h (by simp [sentinel])

theorem sentinel_head : ∀ x ∈ sentinel, x ≠ '\n' := by decide

/-- The sentinel cannot start at a position inside `q ++ '\n' :: b` that
lies in `q` or at the `'\n'`: it contains no newline, and `q` contains no
occurrence. -/
theorem sentinel_not_prefix_mid (q b : List Char) (hq : ¬ sentinel <:+: q) :
    ¬ sentinel <+: (q ++ '\n' :: b) := by
  intro hp
  have hlen : sentinel.length = 7 := rfl
  rcases le_or_lt 7 q.length with h7 | h7
  · have htake : sentinel = (q ++ '\n' :: b).take 7 := by
      simpa [hlen] using (List.prefix_iff_eq_take.mp hp)
    rw [List.take_append_of_le_length h7] at htake
    exact hq ((htake ▸ List.take_prefix 7 q).isInfix)
  · have htake : sentinel = (q ++ '\n' :: b).take 7 := by
      simpa [hlen] using (List.prefix_iff_eq_take.mp hp)
    rw [List.take_append_eq_append_take,
        List.take_of_length_le (le_of_lt h7)] at htake
    have hmem : '\n' ∈ sentinel := by
      rw [htake]
      refine List.mem_append_right _ ?_
      have : 7 - q.length = (7 - q.length - 1) + 1 := by omega
      rw [this, List.take_succ_cons]
      exact List.mem_cons_self _ _
    exact sentinel_head '\n' hmem rfl

theorem splitOnSentinel_no_occurrence (s : List Char)
    (h : ¬ sentinel <:+: s) : splitOnSentinel s = [s] := by
  induction s with
  | nil => rfl
  | cons c rest ih =>
    have hpf : ¬ sentinel <+: (c :: rest) := fun hp => h hp.isInfix
    rw [splitOnSentinel_cons_neg c rest hpf,
        ih (fun hi => h (List.infix_cons hi))]
    rfl

theorem splitOnSentinel_stmt_append (q b : List Char)
    (hq : ¬ sentinel <:+: q) :
    splitOnSentinel (q ++ '\n' :: b) =
      consHead (q ++ ['\n']) (splitOnSentinel b) := by
  induction q with
  | nil =>
    have : ¬ sentinel <+: ('\n' :: b) := by
      simpa using sentinel_not_prefix_mid [] b (by simp [sentinel])
    simpa using splitOnSentinel_cons_neg '\n' b this
  | cons c q' ih =>
    have hstep : ¬ sentinel <+: (c :: (q' ++ '\n' :: b)) := by
      simpa using sentinel_not_prefix_mid (c :: q') b hq
    have hq' : ¬ sentinel <:+: q' := fun hi => hq (List.infix_cons hi)
    calc splitOnSentinel ((c :: q') ++ '\n' :: b)
        = consHead [c] (splitOnSentinel (q' ++ '\n' :: b)) :=
          splitOnSentinel_cons_neg c _ hstep
      _ = consHead [c] (consHead (q' ++ ['\n']) (splitOnSentinel b)) := by
          rw [ih hq']
      _ = consHead ((c :: q') ++ ['\n']) (splitOnSentinel b) := by
          rw [consHead_consHead]; rfl

theorem splitOnSentinel_join_step (q r : List Char)
    (hq : ¬ sentinel <:+: q) :
    splitOnSentinel (q ++ '\n' :: (sentinel ++ r)) =
      (q ++ ['\n']) :: splitOnSentinel r := by
  rw [splitOnSentinel_stmt_append q _ hq, splitOnSentinel_sentinel_append]
  simp [consHead]

theorem trimChars_cons_nl (s : List Char) :
    trimChars ('\n' :: s) = trimChars s := by
  simp [trimChars, trimLeftChars, List.dropWhile_cons, isWs]

theorem trimRightChars_append_nl (s : List Char) :
    trimRightChars (s ++ ['\n']) = trimRightChars s := by
  simp [trimRightChars, List.dropWhile_cons, isWs]

theorem length_trimRightChars_le (s : List Char) :
    (trimRightChars s).length ≤ s.length := by
  have := (List.dropWhile_suffix (l := s.reverse) (p := isWs)).length_le
  simpa [trimRightChars] using this

theorem trimLeftChars_eq_self (q : List Char) (h : trimChars q = q) :
    trimLeftChars q = q := by
  have hsuf : trimLeftChars q <:+ q := List.dropWhile_suffix _
  have h1 : q.length ≤ (trimLeftChars q).length := by
    have h2 := length_trimRightChars_le (trimLeftChars q)
    have h3 : trimRightChars (trimLeftChars q) = q := h
    rw [h3] at h2
    exact h2
  exact hsuf.eq_of_length (le_antisymm hsuf.length_le h1)

theorem trimRightChars_eq_self (q : List Char) (h : trimChars q = q) :
    trimRightChars q = q := by
  have := trimLeftChars_eq_self q h
  calc trimRightChars q = trimChars q := by rw [trimChars, this]
    _ = q := h

theorem head_not_ws (c : Char) (q' : List Char)
    (h : trimChars (c :: q') = c :: q') : isWs c = false := by
  by_contra hws
  have hws' : isWs c = true := by
    cases hx : isWs c
    · exact absurd hx hws
    · rfl
  have hL : trimLeftChars (c :: q') = c :: q' := trimLeftChars_eq_self _ h
  have : trimLeftChars (c :: q') = trimLeftChars q' := by
    simp [trimLeftChars, List.dropWhile_cons, hws']
  have hlen : (trimLeftChars q').length ≤ q'.length :=
    (List.dropWhile_suffix _).length_le
  rw [hL] at this
  have := congrArg List.length this
  simp at this
  omega

theorem trimChars_append_nl (q : List Char) (hne : q ≠ [])
    (h : trimChars q = q) : trimChars (q ++ ['\n']) = q := by
  rcases q with _ | ⟨c, q'⟩
  · exact absurd rfl hne
  · have hc : isWs c = false := head_not_ws c q' h
    have hL : trimLeftChars ((c :: q') ++ ['\n']) = (c :: q') ++ ['\n'] := by
      simp [trimLeftChars, List.dropWhile_cons, hc]
    rw [trimChars, hL, trimRightChars_append_nl]
    exact trimRightChars_eq_self _ h

theorem filter_trim_consHead_nl (l : List (List Char)) (h : l ≠ []) :
    ((consHead ['\n'] l).map trimChars).filter (fun p => !p.isEmpty) =
      (l.map trimChars).filter (fun p => !p.isEmpty) := by
  cases l with
  | nil => exact absurd rfl h
  | cons p ps =>
    have : (['\n'] ++ p) = '\n' :: p := rfl
    simp [consHead, this, trimChars_cons_nl]

/-! ## C4: the `<----->` join/split round trip -/

/-- C4: joining a list of non-empty, trimmed statements that contain no
occurrence of `<----->` with `executeBatch`'s separator `'\n<----->\n'`,
then splitting on `'<----->'`, trimming each piece and dropping empty
pieces (as `UserProfile.tsx` does), returns the original list in the
original order. -/
theorem c4_split_join_roundtrip (qs : List (List Char))
    (h : ∀ q ∈ qs, q ≠ [] ∧ trimChars q = q ∧ ¬ sentinel <:+: q) :
    splitQueries (joinQueries qs) = qs := by
  induction qs with
  | nil => rfl
  | cons q qs ih =>
    obtain ⟨hne, htrim, hinf⟩ := h q (by simp)
    rcases qs with _ | ⟨q2, qs'⟩
    · show splitQueries q = [q]
      rw [splitQueries, splitOnSentinel_no_occurrence q hinf]
      simp [htrim, hne]
    · have hij : splitQueries (joinQueries (q2 :: qs')) = q2 :: qs' :=
        ih (fun p hp => h p (by simp [hp]))
      have hjoin : joinQueries (q :: q2 :: qs') =
          q ++ '\n' :: (sentinel ++ ('\n' :: joinQueries (q2 :: qs'))) := by
        simp [joinQueries, sepJoin, List.append_assoc]
      have hnl : ¬ sentinel <+:
          ('\n' :: joinQueries (q2 :: qs')) := by
        simpa using sentinel_not_prefix_mid [] _ (by simp [sentinel])
      rw [splitQueries, hjoin,
          splitOnSentinel_join_step q _ hinf,
          splitOnSentinel_cons_neg '\n' _ hnl]
      have hq' : trimChars (q ++ ['\n']) = q := trimChars_append_nl q hne htrim
      simp only [List.map_cons, List.filter_cons, hq']
      rw [filter_trim_consHead_nl _ (splitOnSentinel_ne_nil _)]
      have : (!q.isEmpty) = true := by
        cases q
        · exact absurd rfl hne
        · rfl
      rw [this]
      simp only [if_true]
      exact congrArg (q :: ·) hij

/-- Concrete statements for the round-trip witness. -/
def demoQueries : List (List Char) :=
  [("CREATE TABLE t (id INT)").data,
   ("INSERT INTO t VALUES (1)").data,
   ("UPDATE t SET id = 2 WHERE id = 1").data]

/-- Witness for `c4_split_join_roundtrip` on three concrete statements. -/
theorem c4_split_join_roundtrip_witness :
    splitQueries (joinQueries demoQueries) = demoQueries :=
  c4_split_join_roundtrip demoQueries (by decide)

/-! ## C6: pagination bounds (`SqlResult.tsx`, `handlePageChange`) -/

/-- The pagination record the frontend receives (`PaginationInfo`,
SqlResult.tsx). -/
structure PaginationInfo where
  table_id : String
  current_page : Int
  total_pages : Int
  total_rows : Int
  page_size : Int
  deriving DecidableEq, Repr

/-- The handler `handlePageChange` (SqlResult.tsx): a requested page outside
`[1, total_pages]` is rejected (the handler warns and returns without
forwarding); otherwise the page change is forwarded to `onPageChange`. -/
def handlePageChange (newPage : Int) (p : PaginationInfo) : Option Int :=
  if newPage < 1 || newPage > p.total_pages then none
  else some newPage

/-- C6: page retrieval is 1-indexed — a request with page < 1 or
page > total_pages is rejected, and every page in `[1, total_pages]` is
forwarded. -/
theorem c6_pages_one_indexed (newPage : Int) (p : PaginationInfo) :
    (newPage < 1 ∨ newPage > p.total_pages →
        handlePageChange newPage p = none) ∧
    (1 ≤ newPage → newPage ≤ p.total_pages →
        handlePageChange newPage p = some newPage) := by
  constructor
  · intro h
    rcases h with h | h <;> simp [handlePageChange, h]
  · intro h1 h2
    have : ¬ (newPage < 1 || newPage > p.total_pages) = true := by
      simp; omega
    simp [handlePageChange] at this ⊢
    omega

/-- Concrete pagination record for the C6 witness. -/
def demoPagination : PaginationInfo :=
  { table_id := "t1", current_page := 1, total_pages := 5,
    total_rows := 237, page_size := 50 }

/-- Witness for `c6_pages_one_indexed`: page 0 is rejected, page 3 of 5 is
forwarded. -/
theorem c6_pages_one_indexed_witness :
    handlePageChange 0 demoPagination = none ∧
    handlePageChange 3 demoPagination = some 3 :=
  ⟨(c6_pages_one_indexed 0 demoPagination).1 (Or.inl (by decide)),
   (c6_pages_one_indexed 3 demoPagination).2 (by decide) (by decide)⟩

/-! ## C8: conversation-memory retrieval
(`MemoryManager.get_relevant_context`) -/

/-- The method `MemoryManager.get_relevant_context`: `search` is the outcome of the
vector-store similarity search — `Except.error` when the lookup raised,
`Except.ok docs` otherwise.  With memory disabled, a failed lookup, or no
matching documents, the empty string is returned; otherwise the documents
are prefixed with `Previous: ` and joined with a blank line. -/
def get_relevant_context (use_memory : Bool)
    (search : Except String (List String)) : String :=
  if !use_memory then ""
  else
    match search with
    | .error _ => ""
    | .ok docs =>
        if !docs.isEmpty then
          String.intercalate ("\n\n") (docs.map (fun d => "Previous: " ++ d))
        else ""

/-- C8: retrieval on a session with no stored records returns the empty
string; so does retrieval with memory disabled or a failed lookup — never
an error. -/
theorem c8_memory_cold_start (u : Bool) (s : Except String (List String))
    (e : String) :
    get_relevant_context u (Except.ok []) = "" ∧
    get_relevant_context false s = "" ∧
    get_relevant_context u (Except.error e) = "" := by
  refine ⟨?_, ?_, ?_⟩ <;> cases u <;> cases s <;>
    simp [get_relevant_context]

/-! ## C7: the verification report shape
(`VerificationResult.tsx`, lines 4–14) -/

/-- The three verdict values of the `VerificationResult` interface. -/
inductive Verdict where
  | SAFE_TO_EXECUTE
  | REQUIRES_REVIEW
  | DO_NOT_EXECUTE
  deriving DecidableEq, Repr, Fintype

/-- The wire string of a verdict. -/
def Verdict.name : Verdict → String
  | .SAFE_TO_EXECUTE => "SAFE_TO_EXECUTE"
  | .REQUIRES_REVIEW => "REQUIRES_REVIEW"
  | .DO_NOT_EXECUTE => "DO_NOT_EXECUTE"

/-- The `VerificationResult` interface declared in VerificationResult.tsx
(and repeated in UserProfile.tsx): note the verdict field is named
`overall_verdict`. -/
structure VerificationResult where
  is_safe : Bool
  is_correct : Bool
  safety_issues : List String
  correctness_issues : List String
  impact_assessment : String
  estimated_affected_records : String
  recommendations : List String
  overall_verdict : Verdict
  explanation : String
  deriving DecidableEq, Repr

/-- The report as a keyed record: field names in declaration order, each
paired with a rendered value. -/
def verificationResultFields (v : VerificationResult) :
    List (String × String) :=
  [("is_safe", if v.is_safe then "true" else "false"),
   ("is_correct", if v.is_correct then "true" else "false"),
   ("safety_issues", String.intercalate (",") v.safety_issues),
   ("correctness_issues", String.intercalate (",") v.correctness_issues),
   ("impact_assessment", v.impact_assessment),
   ("estimated_affected_records", v.estimated_affected_records),
   ("recommendations", String.intercalate (",") v.recommendations),
   ("overall_verdict", v.overall_verdict.name),
   ("explanation", v.explanation)]

/-- A concrete verification report. -/
def demoReport : VerificationResult :=
  { is_safe := false
    is_correct := true
    safety_issues := ["unrestricted DELETE"]
    correctness_issues := []
    impact_assessment := "removes every matching row"
    estimated_affected_records := "120"
    recommendations := ["add a WHERE clause"]
    overall_verdict := Verdict.REQUIRES_REVIEW
    explanation := "bulk delete requires review" }

/-- C7 counterexample: the report has no field named `verdict`; the field
carrying the verdict is named `overall_verdict`. -/
theorem c7_no_field_named_verdict :
    ("verdict" ∉ (verificationResultFields demoReport).map Prod.fst) ∧
    ("overall_verdict" ∈ (verificationResultFields demoReport).map Prod.fst) := by
  decide

/-- C7 (amended): every verification report carries exactly the nine
interface fields in declaration order — the verdict one named
`overall_verdict`, not `verdict` — and the verdict value is one of exactly
SAFE_TO_EXECUTE, REQUIRES_REVIEW, DO_NOT_EXECUTE. -/
theorem c7_report_shape (v : VerificationResult) :
    (verificationResultFields v).map Prod.fst =
      ["is_safe", "is_correct", "safety_issues", "correctness_issues",
       "impact_assessment", "estimated_affected_records",
       "recommendations", "overall_verdict", "explanation"] ∧
    ((verificationResultFields v).lookup ("overall_verdict") =
      some v.overall_verdict.name) ∧
    (["SAFE_TO_EXECUTE", "REQUIRES_REVIEW",
      "DO_NOT_EXECUTE"].contains v.overall_verdict.name = true) := by
  refine ⟨rfl, ?_, ?_⟩
  · simp [verificationResultFields, List.lookup]
  · cases h : v.overall_verdict <;> simp [Verdict.name]

/-! ## C9: chart types (`Visualization.tsx`, `ChartType`) -/

/-- The `ChartType` union of Visualization.tsx line 20 — fifteen members. -/
inductive ChartType where
  | bar
  | line
  | pie
  | donut
  | scatter
  | area
  | composed
  | radial
  | treemap
  | funnel
  | gauge
  | waterfall
  | heatmap
  | pyramid
  | bubble
  deriving DecidableEq, Repr, Fintype

/-- The wire string of a chart type. -/
def ChartType.name : ChartType → String
  | .bar => "bar"
  | .line => "line"
  | .pie => "pie"
  | .donut => "donut"
  | .scatter => "scatter"
  | .area => "area"
  | .composed => "composed"
  | .radial => "radial"
  | .treemap => "treemap"
  | .funnel => "funnel"
  | .gauge => "gauge"
  | .waterfall => "waterfall"
  | .heatmap => "heatmap"
  | .pyramid => "pyramid"
  | .bubble => "bubble"

/-- The strings of the `ChartType` union, in declaration order. -/
def chartTypeNames : List String :=
  ["bar", "line", "pie", "donut", "scatter", "area", "composed", "radial",
   "treemap", "funnel", "gauge", "waterfall", "heatmap", "pyramid",
   "bubble"]

/-- Written from the spec's words, for comparison with `ChartType`: the ten
chart types §4.9 enumerates. -/
def specTenChartTypes : List String :=
  ["bar", "line", "area", "scatter", "pie", "donut", "composed", "radial",
   "treemap", "funnel"]

/-- C9 counterexample: `heatmap` is a chart type of the code (a `ChartType`
member, recommended for analytics data per the chart-features guide) that
lies outside the spec's set of ten. -/
theorem c9_heatmap_outside_ten :
    ChartType.name ChartType.heatmap ∈ chartTypeNames ∧
    ChartType.name ChartType.heatmap ∉ specTenChartTypes := by
  decide

/-- C9 (amended): a recommendation's chart type is drawn from the fifteen
members of `ChartType` — the spec's ten plus gauge, waterfall, heatmap,
pyramid and bubble; the ten are a strict subset of the code's set. -/
theorem c9_chart_types (t : ChartType) :
    ChartType.name t ∈ chartTypeNames ∧
    specTenChartTypes.all (fun s => chartTypeNames.contains s) = true ∧
    chartTypeNames.length = 15 := by
  refine ⟨?_, by decide, rfl⟩
  cases t <;> simp [ChartType.name, chartTypeNames]

/-! ## C10 and C3: the SQL-editor confirmation panel
(`UserProfile.tsx` lines 417–465, `SqlEditor.tsx` `executeBatch`) -/

/-- The response fields `handleSend` inspects when deciding whether to
attach the SQL-editor panel. -/
structure QueryResult where
  query_type : String
  sql : Option (List Char)
  is_edit_query : Bool
  requires_confirmation : Bool
  deriving DecidableEq, Repr

/-- The `sqlEditor` field attached to a chat message. -/
structure SqlEditorPanel where
  queries : List (List Char)
  requiresConfirmation : Bool
  deriving DecidableEq, Repr

/-- JavaScript truthiness of `result.sql` (absent or empty is falsy). -/
def jsTruthy (s : Option (List Char)) : Bool :=
  match s with
  | none => false
  | some l => !l.isEmpty

/-- The sqlEditor attachment logic of `handleSend` (UserProfile.tsx): only
inside the `sql`/`edit_sql` branch, only when the current user's role is
`admin` and `result.sql` is truthy; case 1 attaches the panel for edit
queries (`edit_sql`, `is_edit_query` or `requires_confirmation`), case 2
for multi-statement responses when edit mode is enabled. -/
def buildSqlEditor (role : Option String) (editModeEnabled : Bool)
    (r : QueryResult) : Option SqlEditorPanel :=
  if r.query_type == "sql" || r.query_type == "edit_sql" then
    if role == some ("admin") && jsTruthy r.sql then
      let queries := splitQueries (r.sql.getD [])
      if r.query_type == "edit_sql" || r.is_edit_query ||
          r.requires_confirmation then
        some { queries := queries
               requiresConfirmation := r.requires_confirmation }
      else if editModeEnabled && decide (queries.length > 1) then
        some { queries := queries, requiresConfirmation := false }
      else none
    else none
  else none

/-- The API calls the frontend performs, used to trace when statements are
actually submitted for execution. -/
inductive ApiCall where
  | query (question : String)
  | execSQL (sessionId : String) (sql : List Char)
  | paginate (sessionId : String) (tableId : String) (page : Int)
  deriving DecidableEq, Repr

/-- What `handleSend` does after `executeQuery` returns (UserProfile.tsx 406–506):
the response handling builds the chat message — including the sqlEditor
panel — purely; it performs no further API call, in particular no
`executeSQL`. -/
def processResultCalls (_ : QueryResult) : List ApiCall := []

/-- The function `executeBatch` (SqlEditor.tsx): the non-empty trimmed cells are joined
with `'\n<----->\n'` and submitted through a single `executeSQL` call;
with no non-empty cell, no call at all is made. -/
def executeBatchCalls (sessionId : String) (cells : List (List Char)) :
    List ApiCall :=
  let valid := (cells.map trimChars).filter (fun p => !p.isEmpty)
  if valid.isEmpty then []
  else [ApiCall.execSQL sessionId (joinQueries valid)]

theorem validCells_eq (cells : List (List Char))
    (h : ∀ c ∈ cells, trimChars c = c ∧ c ≠ []) :
    (cells.map trimChars).filter (fun p => !p.isEmpty) = cells := by
  induction cells with
  | nil => rfl
  | cons c cs ih =>
    obtain ⟨ht, hn⟩ := h c (by simp)
    have hkeep : (!c.isEmpty) = true := by
      cases c
      · exact absurd rfl hn
      · rfl
    simp only [List.map_cons, List.filter_cons, ht, hkeep, if_true]
    rw [ih (fun p hp => h p (by simp [hp]))]

/-! ### C10: the admin gate -/

/-- C10: for every non-admin user the chat message carries no sqlEditor —
neither for `edit_sql` responses nor for multi-statement responses; the
panel is attached only when the role is `admin`. -/
theorem c10_admin_gate (role : Option String) (editMode : Bool)
    (r : QueryResult) (h : role ≠ some ("admin")) :
    buildSqlEditor role editMode r = none := by
  have hb : (role == some ("admin")) = false := by
    cases hr : role == some ("admin")
    · rfl
    · exact absurd (eq_of_beq hr) h
  simp [buildSqlEditor, hb]

/-- A concrete `edit_sql` response requiring confirmation. -/
def demoEditResult : QueryResult :=
  { query_type := "edit_sql"
    sql := some (("DELETE FROM t WHERE country = (SELECT z)").data)
    is_edit_query := true
    requires_confirmation := true }

/-- Witness for `c10_admin_gate`: a viewer gets no sqlEditor on an
`edit_sql` response. -/
theorem c10_admin_gate_witness :
    buildSqlEditor (some ("viewer")) true demoEditResult = none :=
  c10_admin_gate (some ("viewer")) true demoEditResult (by decide)

/-! ### C3: confirmation defers execution -/

/-- C3: on a response with `query_type = edit_sql` and
`requires_confirmation = true` (for an admin, with SQL present), the turn
only attaches the confirmation panel carrying the split statements — the
response handling performs no `executeSQL` call, so nothing is executed in
that turn; the statements run exactly when the caller re-submits them
through `executeBatch`, which emits the single `executeSQL` call with the
re-joined statements. -/
theorem c3_confirmation_defers_execution (role : Option String)
    (editMode : Bool) (r : QueryResult) (sid : String)
    (cells : List (List Char))
    (hq : r.query_type = "edit_sql") (hc : r.requires_confirmation = true)
    (hs : jsTruthy r.sql = true) (hrole : role = some ("admin"))
    (hcells : ∀ c ∈ cells, trimChars c = c ∧ c ≠ []) (hne : cells ≠ []) :
    buildSqlEditor role editMode r =
      some { queries := splitQueries (r.sql.getD [])
             requiresConfirmation := true } ∧
    processResultCalls r = [] ∧
    executeBatchCalls sid cells =
      [ApiCall.execSQL sid (joinQueries cells)] := by
  refine ⟨?_, rfl, ?_⟩
  · simp [buildSqlEditor, hq, hc, hs, hrole]
  · rw [executeBatchCalls, validCells_eq cells hcells]
    simp [hne]

/-- Witness for `c3_confirmation_defers_execution` on the concrete
`edit_sql` response. -/
theorem c3_confirmation_defers_execution_witness :
    buildSqlEditor (some ("admin")) true demoEditResult =
      some { queries := splitQueries (demoEditResult.sql.getD [])
             requiresConfirmation := true } ∧
    processResultCalls demoEditResult = [] ∧
    executeBatchCalls ("s1")
        [("UPDATE t SET x = 1").data] =
      [ApiCall.execSQL ("s1")
        (joinQueries [("UPDATE t SET x = 1").data])] :=
  c3_confirmation_defers_execution (some ("admin")) true demoEditResult
    ("s1") [("UPDATE t SET x = 1").data]
    rfl rfl (by decide) rfl (by decide) (by decide)

/-! ## C2: multi-statement transaction failure
(`SqlEditor.tsx` `executeBatch` failure branch; rollback response format of
the transaction-support guide) -/

/-- A per-statement entry of the response's `query_results` array. -/
structure QueryExecResult where
  success : Bool
  error : Option String
  affected_rows : Int
  deriving DecidableEq, Repr

/-- The batch response fields `executeBatch` inspects on failure. -/
structure BatchResponse where
  success : Bool
  transaction_mode : Bool
  rollback_performed : Bool
  failed_at_query : Int
  error : Option String
  query_results : Option (List QueryExecResult)
  deriving DecidableEq, Repr

/-- The rollback response documented in the transaction-support guide: on a
multi-statement failure the API reports `success = false`,
`transaction_mode = true`, `rollback_performed = true` and the 1-based
`failed_at_query`. -/
def rollbackResponse (failedAt : Int) (errMsg : String)
    (qrs : Option (List QueryExecResult)) : BatchResponse :=
  { success := false
    transaction_mode := true
    rollback_performed := true
    failed_at_query := failedAt
    error := some errMsg
    query_results := qrs }

/-- What a cell shows after a failed batch. -/
inductive CellMark where
  | success (message : String)
  | failure (message : String)
  | unmarked
  deriving DecidableEq, Repr

/-- The failure branch of `executeBatch` (SqlEditor.tsx lines 136–160), for
the cell at 0-based index `i` (non-empty cells only): with an entry in
`query_results`, the cell shows the entry's success message or error;
without one, cells at or after the failure point (`failed_at_query` is
1-based) are marked not-executed, earlier ones are left unmarked. -/
def markCell (failedAt : Int) (qrs : List QueryExecResult) (i : Nat) :
    CellMark :=
  match qrs[i]? with
  | some qr =>
      if qr.success then CellMark.success ("Query executed successfully")
      else CellMark.failure (qr.error.getD ("Query failed"))
  | none =>
      if (i : Int) < failedAt - 1 then CellMark.unmarked
      else CellMark.failure ("Not executed (transaction failed)")

/-- Substring check over char lists. -/
def containsSub (pat : List Char) : List Char → Bool
  | [] => pat.isEmpty
  | c :: rest => pat.isPrefixOf (c :: rest) || containsSub pat rest

/-- Written from the spec's words, for comparison with the marks the code
produces: a cell is "marked as rolled back" when its message mentions a
rollback. -/
def mentionsRollback (m : String) : Bool :=
  containsSub (("roll").data) m.data || containsSub (("Roll").data) m.data

/-- The per-statement entries of scenario 5 of the spec: three statements,
the first executed, the second failing, the third never reached and absent
from `query_results`. -/
def demoQueryResults : List QueryExecResult :=
  [{ success := true, error := none, affected_rows := 0 },
   { success := false
     error := some ("table xyz does not exist")
     affected_rows := 0 }]

/-- C2 counterexample: in a failed three-statement transaction
(failure at statement 2), the statement executed before the failure is
marked `Query executed successfully` — a success mark, mentioning no
rollback — not "rolled back"; only the statement after the failure point is
marked skipped. -/
theorem c2_executed_marked_success :
    markCell 2 demoQueryResults 0 =
      CellMark.success ("Query executed successfully") ∧
    mentionsRollback ("Query executed successfully") = false ∧
    markCell 2 demoQueryResults 2 =
      CellMark.failure ("Not executed (transaction failed)") := by
  decide

/-- C2 (amended): on a multi-statement failure the response reports
`rollback_performed = true` and the 1-based `failed_at_query`, and the
per-statement marks are: a statement with a `query_results` entry shows
that entry's outcome — `Query executed successfully` (not a rollback mark)
when it executed, its error when it failed — while a statement without an
entry is marked `Not executed (transaction failed)` when at or after the
failure point and left unmarked otherwise. -/
theorem c2_rollback_marks (failedAt : Int) (errMsg : String)
    (qrs : List QueryExecResult) (i : Nat) :
    ((rollbackResponse failedAt errMsg (some qrs)).rollback_performed =
        true ∧
     (rollbackResponse failedAt errMsg (some qrs)).failed_at_query =
        failedAt ∧
     (rollbackResponse failedAt errMsg (some qrs)).success = false) ∧
    (∀ qr, qrs[i]? = some qr → qr.success = true →
        markCell failedAt qrs i =
          CellMark.success ("Query executed successfully") ∧
        mentionsRollback ("Query executed successfully") = false) ∧
    (∀ qr, qrs[i]? = some qr → qr.success = false →
        markCell failedAt qrs i =
          CellMark.failure (qr.error.getD ("Query failed"))) ∧
    (qrs[i]? = none → failedAt - 1 ≤ (i : Int) →
        markCell failedAt qrs i =
          CellMark.failure ("Not executed (transaction failed)")) ∧
    (qrs[i]? = none → (i : Int) < failedAt - 1 →
        markCell failedAt qrs i = CellMark.unmarked) := by
  refine ⟨⟨rfl, rfl, rfl⟩, ?_, ?_, ?_, ?_⟩
  · intro qr hqr hs
    refine ⟨?_, by decide⟩
    simp [markCell, hqr, hs]
  · intro qr hqr hs
    simp [markCell, hqr, hs]
  · intro hnone hle
    have : ¬ ((i : Int) < failedAt - 1) := by omega
    simp [markCell, hnone, this]
  · intro hnone hlt
    simp [markCell, hnone, hlt]

/-- Witness for `c2_rollback_marks` on the concrete failed transaction. -/
theorem c2_rollback_marks_witness :
    ((rollbackResponse 2
        ("Transaction failed at query 2") (some demoQueryResults)).rollback_performed = true ∧
     (rollbackResponse 2
        ("Transaction failed at query 2") (some demoQueryResults)).failed_at_query = 2 ∧
     (rollbackResponse 2
        ("Transaction failed at query 2") (some demoQueryResults)).success = false) ∧
    (markCell 2 demoQueryResults 0 =
        CellMark.success ("Query executed successfully") ∧
      mentionsRollback ("Query executed successfully") = false) ∧
    markCell 2 demoQueryResults 2 =
      CellMark.failure ("Not executed (transaction failed)") :=
  ⟨(c2_rollback_marks 2 ("Transaction failed at query 2")
      demoQueryResults 0).1,
   (c2_rollback_marks 2 ("Transaction failed at query 2")
      demoQueryResults 0).2.1
      { success := true, error := none, affected_rows := 0 } rfl rfl,
   (c2_rollback_marks 2 ("Transaction failed at query 2")
      demoQueryResults 2).2.2.2.1 rfl (by decide)⟩

end NlpToSql
